import Mathlib

set_option maxRecDepth 100000

/-!
Verification of the Open JTalk Speech Dispatcher backend
(src/src/modules/openjtalk.c) against its natural-language specification.

The C source is shallowly embedded: the voice-path search of
`update_htsvoice_path` becomes a recursive function over the template
list, the fixed-offset WAV reader inside `module_speak_sync` becomes a
pure function over the file's byte list, and the per-request control
flow of `module_speak_sync` becomes a function producing a trace of
observable events (speak ok/error, begin/end, temp-file creation and
unlink, lookup calls, audio delivery) together with the resulting
module state (`none` models process abort: a failed assert or the
unguarded division crashing the process).
-/

namespace OpenJTalk

/-! ## Voice path substitution and search (update_htsvoice_path, lines 119-144) -/

/-- One left-to-right pass replacing every occurrence of the literal
placeholder `$VOICE` by the voice identifier, modelling
`g_string_replace(htsvoice_path, "$VOICE", openjtalk_msg_voice_str, 0)`
(limit 0 = replace all; the inserted text is not rescanned). -/
def substVoice (voice : List Char) : List Char → List Char
  | '$' :: 'V' :: 'O' :: 'I' :: 'C' :: 'E' :: rest => voice ++ substVoice voice rest
  | c :: rest => c :: substVoice voice rest
  | [] => []

/-- String-level wrapper for `substVoice`. -/
def substVoiceStr (tmpl voice : String) : String :=
  String.mk (substVoice voice.toList tmpl.toList)

/-- The for-loop of `update_htsvoice_path` (lines 131-143): walk the
configured search-path templates in order, substitute `$VOICE`, and
return the first substituted path that passes the file-existence test
`g_file_test(..., G_FILE_TEST_EXISTS)` (abstracted as the predicate
`fx`); `none` when no template matches. -/
def search_htsvoice (templates : List String) (voice : String) (fx : String → Bool) :
    Option String :=
  match templates with
  | [] => none
  | t :: ts =>
      let p := substVoiceStr t voice
      if fx p then some p else search_htsvoice ts voice fx

/-- `update_htsvoice_path` (lines 119-144): the old path is dropped; a
null `openjtalk_msg_voice_str` yields no path; otherwise the template
search runs. -/
def update_htsvoice_path (templates : List String) (fx : String → Bool)
    (voiceStr : Option String) : Option String :=
  match voiceStr with
  | none => none
  | some v => search_htsvoice templates v fx

/-! ## Fixed-offset WAV extraction (module_speak_sync, lines 239-303) -/

/-- Offset constant from the source (line 46). -/
def WAV_START_BITS_PER_SAMPLE : Nat := 34

/-- Offset constant from the source (line 47). -/
def WAV_START_NUM_CHANNELS : Nat := 22

/-- Offset constant from the source (line 48). -/
def WAV_START_SAMPLE_RATE : Nat := 24

/-- Offset constant from the source (line 49). -/
def WAV_START_SIZE_OF_SAMPLES : Nat := 40

/-- Offset constant from the source (line 50). -/
def WAV_START_SAMPLES : Nat := 44

/-- Little-endian value of a byte list (`fread` into a little-endian
integer field, as the source assumes). -/
def leVal : List Nat → Nat
  | [] => 0
  | b :: bs => b % 256 + 256 * leVal bs

/-- `fseek(fp, off, SEEK_SET)` followed by `fread(&field, n, 1, fp)`:
succeeds exactly when `n` bytes are available at offset `off` and then
yields the little-endian value of those bytes; a short read yields
`none` (the source checks `ret != 1`). -/
def readLE (file : List Nat) (off n : Nat) : Option Nat :=
  if off + n ≤ file.length then some (leVal ((file.drop off).take n)) else none

/-- Number of complete items returned by `fread(buf, size, nmemb, fp)`
when the stream has `fileLen` bytes and is positioned at `off`
(POSIX: result 0 when `size` is 0, otherwise the number of whole items
available, capped at `nmemb`). -/
def freadCount (fileLen off size nmemb : Nat) : Nat :=
  if size = 0 then 0 else min nmemb ((fileLen - off) / size)

/-- The `AudioTrack` record filled by `module_speak_sync`
(lines 239-245); `samples` holds the bytes read from the sample block. -/
structure AudioTrack where
  bits : Nat
  num_channels : Nat
  sample_rate : Nat
  num_samples : Nat
  samples : List Nat
  deriving Repr, DecidableEq

/-- Which of the five reads came up short. -/
inductive WavStep where
  | bits
  | numChannels
  | sampleRate
  | numSamples
  | samples
  deriving Repr, DecidableEq

/-- Failure of the extraction part of `module_speak_sync`: a short read
at one of the five steps, or the unguarded integer division on line 286
faulting because `num_channels` or `bits / 8` is zero. -/
inductive WavError where
  | shortRead (s : WavStep)
  | divByZero
  deriving Repr, DecidableEq

/-- Decidable equality for `Except`, used to evaluate extraction
results on concrete inputs. -/
instance exceptDecEq {ε α : Type} [DecidableEq ε] [DecidableEq α] :
    DecidableEq (Except ε α) := fun x y =>
  match x, y with
  | .ok a, .ok b =>
      if h : a = b then .isTrue (by rw [h])
      else .isFalse (by intro he; cases he; exact h rfl)
  | .error a, .error b =>
      if h : a = b then .isTrue (by rw [h])
      else .isFalse (by intro he; cases he; exact h rfl)
  | .ok _, .error _ => .isFalse (by intro he; cases he)
  | .error _, .ok _ => .isFalse (by intro he; cases he)

/-- Outcome of one run of the extraction code, together with a ledger of
the sample-buffer allocations (`malloc`, line 293) and releases
(`free(track.samples)` on the short-read path, line 300) performed
before the run ended. -/
structure ExtractRun where
  result : Except WavError AudioTrack
  allocated : List Nat
  freed : Nat
  deriving Repr, DecidableEq

/-- The extraction code of `module_speak_sync` (lines 255-302): four
discrete seek+read pairs in source order (bits at 34, channels at 22,
sample rate at 24, data byte length at 40), then
`track.num_samples = track.num_samples / track.num_channels / (track.bits / 8)`
(line 285-286, with the division fault made explicit), then
`malloc(track.num_samples * track.num_channels * track.bits / 8)` and
`fread(track.samples, track.bits / 8, track.num_samples * track.num_channels, fp)`
from offset 44, failing (and freeing the buffer) when fewer than
`track.num_samples * track.num_channels` whole items arrive. -/
def extract (file : List Nat) : ExtractRun :=
  match readLE file WAV_START_BITS_PER_SAMPLE 2 with
  | none => ⟨.error (.shortRead .bits), [], 0⟩
  | some bits =>
    match readLE file WAV_START_NUM_CHANNELS 2 with
    | none => ⟨.error (.shortRead .numChannels), [], 0⟩
    | some ch =>
      match readLE file WAV_START_SAMPLE_RATE 4 with
      | none => ⟨.error (.shortRead .sampleRate), [], 0⟩
      | some sr =>
        match readLE file WAV_START_SIZE_OF_SAMPLES 4 with
        | none => ⟨.error (.shortRead .numSamples), [], 0⟩
        | some dataLen =>
          if ch = 0 ∨ bits / 8 = 0 then ⟨.error .divByZero, [], 0⟩
          else
            let ns := dataLen / ch / (bits / 8)
            let allocSize := ns * ch * bits / 8
            if freadCount file.length WAV_START_SAMPLES (bits / 8) (ns * ch) = ns * ch then
              ⟨.ok ⟨bits, ch, sr, ns,
                    (file.drop WAV_START_SAMPLES).take (bits / 8 * (ns * ch))⟩,
               [allocSize], 0⟩
            else ⟨.error (.shortRead .samples), [allocSize], 1⟩

/-! ## Test fixtures -/

/-- Two little-endian bytes of a 16-bit value. -/
def le2 (v : Nat) : List Nat := [v % 256, v / 256 % 256]

/-- Four little-endian bytes of a 32-bit value. -/
def le4 (v : Nat) : List Nat :=
  [v % 256, v / 256 % 256, v / 65536 % 256, v / 16777216 % 256]

/-- Fixture: a 44-byte fixed-offset header (channels at 22, sample rate
at 24, bits at 34, data byte length at 40, all other bytes zero)
followed by the payload. -/
def mkWav (bits ch sr dataLen : Nat) (payload : List Nat) : List Nat :=
  List.replicate 22 0 ++ le2 ch ++ le4 sr ++ List.replicate 6 0 ++ le2 bits ++
    List.replicate 4 0 ++ le4 dataLen ++ payload

/-- Fixture: the spec's example container: channels 2, 16 bits, data
byte length 400, with exactly 400 payload bytes. -/
def wavExample : List Nat := mkWav 16 2 8000 400 (List.replicate 400 7)

/-! ## Claim C1 -/

/-- Claim C1: for every template list and every resolved voice
identifier, the search of `update_htsvoice_path` returns the
substituted path of the first template, in insertion order, whose
substituted path passes the file-existence test; when none does (in
particular for the empty list) the result is `none`.  Stated by
comparing the loop with `List.find?` over the substituted paths, which
returns the first element satisfying the predicate and `none` on the
empty list. -/
theorem claim_C1 (templates : List String) (voice : String) (fx : String → Bool) :
    search_htsvoice templates voice fx =
      (templates.map (fun t => substVoiceStr t voice)).find? fx := by
  induction templates with
  | nil => rfl
  | cons t ts ih =>
      simp only [search_htsvoice, List.map_cons, List.find?]
      by_cases h : fx (substVoiceStr t voice)
      · simp [h]
      · simp [h, ih]

/-! ## Helper lemmas about the reads -/

/-- When `off + size * nmemb` bytes fit in the file and items are
non-empty, `fread` delivers all `nmemb` items. -/
lemma freadCount_full (L off size nmemb : Nat) (hsize : 0 < size)
    (h : off + size * nmemb ≤ L) : freadCount L off size nmemb = nmemb := by
  unfold freadCount
  rw [if_neg (Nat.pos_iff_ne_zero.mp hsize)]
  have h1 : size * nmemb ≤ L - off := by
    have h2 : size * nmemb + off ≤ L := by omega
    exact Nat.le_sub_of_add_le h2
  have hle : nmemb ≤ (L - off) / size := by
    rw [Nat.mul_comm] at h1
    exact (Nat.le_div_iff_mul_le hsize).mpr h1
  exact Nat.min_eq_left hle

/-- A complete sample-block read means its byte count fits after
offset 44. -/
lemma freadCount_le (L size nmemb : Nat) (hsize : size ≠ 0)
    (h : freadCount L WAV_START_SAMPLES size nmemb = nmemb) :
    size * nmemb ≤ L - WAV_START_SAMPLES := by
  unfold freadCount at h
  rw [if_neg hsize] at h
  have hle : nmemb ≤ (L - WAV_START_SAMPLES) / size := min_eq_left_iff.mp h
  have := (Nat.le_div_iff_mul_le (Nat.pos_of_ne_zero hsize)).mp hle
  rwa [Nat.mul_comm] at this

/-! ## Claim C2 -/

/-- Claim C2: on a well-formed fixed-offset file, the extractor reads
bits (2 bytes at 34), channels (2 bytes at 22), sample rate (4 bytes
at 24), and data byte length (4 bytes at 40), each as a discrete
seek+read, computes
`numSamples = dataByteLength / numChannels / (bitsPerSample / 8)`, and
reads the sample block starting at offset 44.  Well-formedness: every
header field is in range, channels are at least 1, bits at least 8, and
the sample block fits in the file.  The last two conjuncts evidence the
read order bits, channels, sampleRate, dataByteLength: a 25-byte file
could satisfy the channel read (offset 22 + 2) but fails with the
bits-step error because bits is read first, and a 36-byte file
satisfies the first three reads and fails only at the data-byte-length
step. -/
theorem claim_C2 :
    (∀ (file : List Nat) (bits ch sr dataLen : Nat),
      readLE file 34 2 = some bits →
      readLE file 22 2 = some ch →
      readLE file 24 4 = some sr →
      readLE file 40 4 = some dataLen →
      1 ≤ ch → 8 ≤ bits →
      44 + bits / 8 * (dataLen / ch / (bits / 8) * ch) ≤ file.length →
      (extract file).result =
        Except.ok ⟨bits, ch, sr, dataLen / ch / (bits / 8),
          (file.drop 44).take (bits / 8 * (dataLen / ch / (bits / 8) * ch))⟩) ∧
    (extract (wavExample.take 25)).result =
      Except.error (WavError.shortRead WavStep.bits) ∧
    (extract (wavExample.take 36)).result =
      Except.error (WavError.shortRead WavStep.numSamples) := by
  refine ⟨?_, by decide, by decide⟩
  intro file bits ch sr dataLen hb hc hs hd hch hbits hlen
  have h8 : 0 < bits / 8 := Nat.div_pos hbits (by norm_num)
  have hguard : ¬ (ch = 0 ∨ bits / 8 = 0) := by omega
  have hfr : freadCount file.length 44 (bits / 8) (dataLen / ch / (bits / 8) * ch) =
      dataLen / ch / (bits / 8) * ch := freadCount_full _ _ _ _ h8 hlen
  simp only [extract, WAV_START_BITS_PER_SAMPLE, WAV_START_NUM_CHANNELS,
    WAV_START_SAMPLE_RATE, WAV_START_SIZE_OF_SAMPLES, WAV_START_SAMPLES,
    hb, hc, hs, hd]
  rw [if_neg hguard, if_pos hfr]

/-- Witness for C2 at the spec's example: channels 2, 16 bits, data
byte length 400 give `numSamples = 100` and exactly the 400 bytes from
offset 44. -/
theorem claim_C2_witness :
    (extract wavExample).result =
      Except.ok ⟨16, 2, 8000, 100, (wavExample.drop 44).take 400⟩ :=
  claim_C2.1 wavExample 16 2 8000 400 (by decide) (by decide) (by decide)
    (by decide) (by decide) (by decide) (by decide)

/-! ## Claim C3 -/

/-- Fixture refuting C3 as stated: 12 bits per sample, one channel,
data byte length 12. -/
def c3file : List Nat := mkWav 12 1 0 12 (List.replicate 12 5)

/-- Counterexample to claim C3 as stated: on `c3file` extraction
succeeds with `num_samples = 12`, yet the allocated buffer size (the
`malloc` argument `num_samples * num_channels * track.bits / 8 = 18`)
is not `numSamples * numChannels * (bitsPerSample / 8) = 12`: the
source divides by 8 only after multiplying by `bits`. -/
theorem claim_C3_cex :
    (extract c3file).result = Except.ok ⟨12, 1, 0, 12, List.replicate 12 5⟩ ∧
    (extract c3file).allocated ≠ [12 * 1 * (12 / 8)] := by decide

/-- Claim C3 (amended): on every successful extraction the number of
bytes actually read is `bitsPerSample / 8 * (numSamples * numChannels)`
and the allocated size is `numSamples * numChannels * bitsPerSample / 8`
(division last); when 8 divides `bitsPerSample` — in particular for
every byte-aligned sample size — both equal
`numSamples * numChannels * (bitsPerSample / 8)` as the claim states. -/
theorem claim_C3_amended (file : List Nat) (t : AudioTrack)
    (h : (extract file).result = Except.ok t) :
    t.samples.length = t.bits / 8 * (t.num_samples * t.num_channels) ∧
    (extract file).allocated = [t.num_samples * t.num_channels * t.bits / 8] ∧
    (8 ∣ t.bits →
      t.samples.length = t.num_samples * t.num_channels * (t.bits / 8) ∧
      t.num_samples * t.num_channels * t.bits / 8 =
        t.num_samples * t.num_channels * (t.bits / 8)) := by
  rcases hb : readLE file WAV_START_BITS_PER_SAMPLE 2 with _ | bits
  · simp [extract, hb] at h
  rcases hc : readLE file WAV_START_NUM_CHANNELS 2 with _ | ch
  · simp [extract, hb, hc] at h
  rcases hs : readLE file WAV_START_SAMPLE_RATE 4 with _ | sr
  · simp [extract, hb, hc, hs] at h
  rcases hd : readLE file WAV_START_SIZE_OF_SAMPLES 4 with _ | dataLen
  · simp [extract, hb, hc, hs, hd] at h
  by_cases hz : ch = 0 ∨ bits / 8 = 0
  · simp [extract, hb, hc, hs, hd, hz] at h
  by_cases hfr : freadCount file.length WAV_START_SAMPLES (bits / 8)
      (dataLen / ch / (bits / 8) * ch) = dataLen / ch / (bits / 8) * ch
  · simp only [extract, hb, hc, hs, hd, if_neg hz, if_pos hfr,
      Except.ok.injEq] at h
    subst h
    have hsz : bits / 8 ≠ 0 := by
      intro h0
      exact hz (Or.inr h0)
    have hbytes : bits / 8 * (dataLen / ch / (bits / 8) * ch) ≤
        file.length - WAV_START_SAMPLES := freadCount_le _ _ _ hsz hfr
    have hlen : ((file.drop WAV_START_SAMPLES).take
        (bits / 8 * (dataLen / ch / (bits / 8) * ch))).length =
        bits / 8 * (dataLen / ch / (bits / 8) * ch) := by
      rw [List.length_take, List.length_drop]
      exact Nat.min_eq_left hbytes
    refine ⟨by simpa using hlen, ?_, ?_⟩
    · simp only [extract, hb, hc, hs, hd, if_neg hz, if_pos hfr]
    · intro hdvd
      constructor
      · simpa [Nat.mul_comm] using hlen
      · simpa using Nat.mul_div_assoc (dataLen / ch / (bits / 8) * ch) hdvd
  · simp [extract, hb, hc, hs, hd, hz, hfr] at h

/-- The track extracted from the example file. -/
def trackExample : AudioTrack := ⟨16, 2, 8000, 100, (wavExample.drop 44).take 400⟩

/-- Witness for the amended C3 at the example file. -/
theorem claim_C3_witness :
    trackExample.samples.length =
      trackExample.bits / 8 * (trackExample.num_samples * trackExample.num_channels) ∧
    (extract wavExample).allocated =
      [trackExample.num_samples * trackExample.num_channels * trackExample.bits / 8] ∧
    (8 ∣ trackExample.bits →
      trackExample.samples.length =
        trackExample.num_samples * trackExample.num_channels * (trackExample.bits / 8) ∧
      trackExample.num_samples * trackExample.num_channels * trackExample.bits / 8 =
        trackExample.num_samples * trackExample.num_channels * (trackExample.bits / 8)) :=
  claim_C3_amended wavExample trackExample (by decide)

/-! ## Claim C6 -/

/-- Claim C6: a short read at any of the five read steps fails the
whole extraction — contrapositively, success requires the sample block
(and with it every header read) to fit in the file — and on every error
return the number of sample buffers allocated equals the number freed,
so a file truncated before or inside the sample block leaks nothing. -/
theorem claim_C6 (file : List Nat) :
    (∀ e : WavError, (extract file).result = Except.error e →
       (extract file).allocated.length = (extract file).freed) ∧
    (∀ t : AudioTrack, (extract file).result = Except.ok t →
       44 + t.bits / 8 * (t.num_samples * t.num_channels) ≤ file.length) := by
  rcases hb : readLE file WAV_START_BITS_PER_SAMPLE 2 with _ | bits
  · constructor
    · intro e _
      simp [extract, hb]
    · intro t ht
      simp [extract, hb] at ht
  rcases hc : readLE file WAV_START_NUM_CHANNELS 2 with _ | ch
  · constructor
    · intro e _
      simp [extract, hb, hc]
    · intro t ht
      simp [extract, hb, hc] at ht
  rcases hs : readLE file WAV_START_SAMPLE_RATE 4 with _ | sr
  · constructor
    · intro e _
      simp [extract, hb, hc, hs]
    · intro t ht
      simp [extract, hb, hc, hs] at ht
  rcases hd : readLE file WAV_START_SIZE_OF_SAMPLES 4 with _ | dataLen
  · constructor
    · intro e _
      simp [extract, hb, hc, hs, hd]
    · intro t ht
      simp [extract, hb, hc, hs, hd] at ht
  by_cases hz : ch = 0 ∨ bits / 8 = 0
  · constructor
    · intro e _
      simp [extract, hb, hc, hs, hd, hz]
    · intro t ht
      simp [extract, hb, hc, hs, hd, hz] at ht
  by_cases hfr : freadCount file.length WAV_START_SAMPLES (bits / 8)
      (dataLen / ch / (bits / 8) * ch) = dataLen / ch / (bits / 8) * ch
  · constructor
    · intro e he
      simp [extract, hb, hc, hs, hd, hz, hfr] at he
    · intro t ht
      simp only [extract, hb, hc, hs, hd, if_neg hz, if_pos hfr,
        Except.ok.injEq] at ht
      subst ht
      have hsz : bits / 8 ≠ 0 := by
        intro h0
        exact hz (Or.inr h0)
      have hbytes : bits / 8 * (dataLen / ch / (bits / 8) * ch) ≤
          file.length - WAV_START_SAMPLES := freadCount_le _ _ _ hsz hfr
      have h44 : WAV_START_SAMPLES ≤ file.length := by
        have : 40 + 4 ≤ file.length := by
          by_contra hcon
          simp [readLE, WAV_START_SIZE_OF_SAMPLES] at hd
          omega
        simpa [WAV_START_SAMPLES] using this
      simp only [WAV_START_SAMPLES] at hbytes h44
      simp only []
      omega
  · constructor
    · intro e _
      simp [extract, hb, hc, hs, hd, hz, hfr]
    · intro t ht
      simp [extract, hb, hc, hs, hd, hz, hfr] at ht

/-- Fixture for C6's witness: the file is cut in the middle of the
sample block (144 bytes where 444 are announced). -/
def truncWav : List Nat := mkWav 16 2 0 400 (List.replicate 100 7)

/-- Witness for C6 at a file truncated inside the sample block: the one
allocated buffer is freed. -/
theorem claim_C6_witness :
    (extract truncWav).allocated.length = (extract truncWav).freed :=
  (claim_C6 truncWav).1 (WavError.shortRead WavStep.samples) (by decide)

/-! ## Claim C10 -/

/-- Claim C10: the `numSamples` computation divides by `numChannels`
and by `bitsPerSample / 8` with no guard.  For every header with at
least one channel and at least 8 bits per sample both divisors are
non-zero, so the division fault is unreachable; but header values read
from the file with zero channels, or with fewer than 8 bits per sample,
do reach a zero divisor. -/
theorem claim_C10 :
    (∀ (file : List Nat) (bits ch sr dataLen : Nat),
        readLE file 34 2 = some bits → readLE file 22 2 = some ch →
        readLE file 24 4 = some sr → readLE file 40 4 = some dataLen →
        1 ≤ ch → 8 ≤ bits →
        (extract file).result ≠ Except.error WavError.divByZero) ∧
    (extract (mkWav 16 0 0 0 [])).result = Except.error WavError.divByZero ∧
    (extract (mkWav 4 1 0 0 [])).result = Except.error WavError.divByZero := by
  refine ⟨?_, by decide, by decide⟩
  intro file bits ch sr dataLen hb hc hs hd hch hbits
  have h8 : 0 < bits / 8 := Nat.div_pos hbits (by norm_num)
  have hz : ¬ (ch = 0 ∨ bits / 8 = 0) := by omega
  simp only [extract, WAV_START_BITS_PER_SAMPLE, WAV_START_NUM_CHANNELS,
    WAV_START_SAMPLE_RATE, WAV_START_SIZE_OF_SAMPLES, WAV_START_SAMPLES,
    hb, hc, hs, hd]
  rw [if_neg hz]
  split_ifs <;> simp

/-- Witness for C10's guarded part at the example file. -/
theorem claim_C10_witness :
    (extract wavExample).result ≠ Except.error WavError.divByZero :=
  claim_C10.1 wavExample 16 2 8000 400 (by decide) (by decide) (by decide)
    (by decide) (by decide) (by decide)

/-! ## Module state, collaborators, and observable events -/

/-- The module-global mutable state of the backend: the resolved voice
identifier `openjtalk_msg_voice_str`, the current language
`openjtalk_msg_language`, and the resolved model path
`openjtalk_htsvoice_path` (lines 65-67). -/
structure ModState where
  msg_voice_str : Option String
  msg_language : Option String
  htsvoice_path : Option String
  deriving Repr, DecidableEq

/-- The message settings delivered by the host framework
(`msg_settings.voice.language`, `msg_settings.voice_type`,
`msg_settings.voice.name`). -/
structure MsgSettings where
  language : Option String
  voice_type : Nat
  name : Option String
  deriving Repr, DecidableEq

/-- External collaborators and per-request outcomes of the calls
`module_speak_sync` makes: the voice registry (`module_getvoice`,
`module_existsvoice`), the filesystem test and configured search paths
used by `update_htsvoice_path`, and the results of `mkstemp`,
`asprintf`, `popen`, `pclose`, and `fopen`, plus the bytes of the
engine's output file. -/
structure Env where
  getvoice : String → Nat → Option String
  existsvoice : String → Bool
  fileExists : String → Bool
  searchPaths : List String
  mkstempOk : Bool
  asprintfOk : Bool
  popenOk : Bool
  pcloseStatus : Int
  fopenOk : Bool
  wavFile : List Nat

/-- Observable events of one speak request: the speak ok/error reply,
the begin/end report events, a diagnostic log entry on an error branch,
creation and unlinking of the temporary output file, the hand-off to
`module_tts_output_server`, a `module_getvoice` lookup, and a failed
`assert`. -/
inductive Ev where
  | speakError
  | speakOk
  | eventBegin
  | eventEnd
  | log
  | tmpCreated
  | unlink
  | deliver
  | lookup (lang : String) (vt : Nat)
  | abortAssert
  deriving Repr, DecidableEq

/-! ## The setters (lines 146-174) -/

/-- `openjtalk_set_voice` (lines 146-156): asserts that the language is
set (a violated assert aborts the process, modelled as `none`), looks
up the voice identifier for `(language, voice_type)`, stores it — it
may be null — and recomputes the model path. -/
def openjtalk_set_voice (env : Env) (st : ModState) (vt : Nat) :
    List Ev × Option ModState :=
  match st.msg_language with
  | none => ([Ev.abortAssert], none)
  | some lang =>
      ([Ev.lookup lang vt],
       some ⟨env.getvoice lang vt, some lang,
             update_htsvoice_path env.searchPaths env.fileExists (env.getvoice lang vt)⟩)

/-- `openjtalk_set_language` (lines 158-164): stores the language and
re-runs `openjtalk_set_voice` with the message's voice type. -/
def openjtalk_set_language (env : Env) (st : ModState) (lang : String) (vt : Nat) :
    List Ev × Option ModState :=
  openjtalk_set_voice env ⟨st.msg_voice_str, some lang, st.htsvoice_path⟩ vt

/-- `openjtalk_set_synthesis_voice` (lines 166-174): only when the
named voice is registered does it become the voice identifier and is
the model path recomputed; otherwise the state is left untouched. -/
def openjtalk_set_synthesis_voice (env : Env) (st : ModState) (name : String) :
    ModState :=
  if env.existsvoice name then
    ⟨some name, st.msg_language,
     update_htsvoice_path env.searchPaths env.fileExists (some name)⟩
  else st

/-! ## The parameter-update step (lines 181-183) -/

/-- Modelled from the spec: `UPDATE_STRING_PARAMETER(voice.language,
openjtalk_set_language)` comes from the host framework's
module_utils.h, which is not part of this repository's sources; per the
spec's parameter-update step it invokes the setter exactly when the
message's language differs from the previous message's (string setters
fire only for a non-null new value). -/
def step_lang (env : Env) (st : ModState) (old new_ : MsgSettings) :
    List Ev × Option ModState :=
  if new_.language ≠ old.language then
    match new_.language with
    | some l => openjtalk_set_language env st l new_.voice_type
    | none => ([], some st)
  else ([], some st)

/-- Modelled from the spec: `UPDATE_PARAMETER(voice_type,
openjtalk_set_voice)` invokes the setter exactly when the voice type
changed. -/
def step_vt (env : Env) (st : ModState) (old new_ : MsgSettings) :
    List Ev × Option ModState :=
  if new_.voice_type ≠ old.voice_type then openjtalk_set_voice env st new_.voice_type
  else ([], some st)

/-- Modelled from the spec: `UPDATE_STRING_PARAMETER(voice.name,
openjtalk_set_synthesis_voice)` invokes the setter exactly when the
explicit voice name changed to a non-null value. -/
def step_name (env : Env) (st : ModState) (old new_ : MsgSettings) : ModState :=
  if new_.name ≠ old.name then
    match new_.name with
    | some n => openjtalk_set_synthesis_voice env st n
    | none => st
  else st

/-- The whole parameter-update step of `module_speak_sync`
(lines 181-183), in source order: language, voice type, name.  An
abort (failed assert) stops the sequence. -/
def update_parameters (env : Env) (st : ModState) (old new_ : MsgSettings) :
    List Ev × Option ModState :=
  match (step_lang env st old new_).2 with
  | none => ((step_lang env st old new_).1, none)
  | some st1 =>
    match (step_vt env st1 old new_).2 with
    | none => ((step_lang env st old new_).1 ++ (step_vt env st1 old new_).1, none)
    | some st2 =>
        ((step_lang env st old new_).1 ++ (step_vt env st1 old new_).1,
         some (step_name env st2 old new_))

/-- The resolved model path after the parameter-update step (`none`
when the step aborted the process). -/
def pathAfterUpdate (env : Env) (st : ModState) (old new_ : MsgSettings) :
    Option (Option String) :=
  (update_parameters env st old new_).2.map (fun s => s.htsvoice_path)

/-! ## The request body after the parameter update (lines 185-322) -/

/-- The body of `module_speak_sync` after the parameter update: refuse
with `module_speak_error` when no model path is resolved; otherwise
accept (`module_speak_ok`, `module_report_event_begin`) and run through
temp-file creation (`mkstemp`), command-line construction (`asprintf`),
the engine subprocess (`popen`/`pclose`, success only at exit status
0), opening and extracting the output file, and delivery
(`module_tts_output_server`).  Every exit path after a successful
`mkstemp` passes `TEMPLATE_FINISH:` and unlinks the temporary file
exactly once, then reports `module_report_event_end`; the unguarded
division fault inside extraction kills the process (state `none`)
before reaching any of that. -/
def speak_body (env : Env) (st1 : ModState) : List Ev × Option ModState :=
  if st1.htsvoice_path = none then
    ([Ev.log, Ev.speakError], some st1)
  else if env.mkstempOk = false then
    ([Ev.speakOk, Ev.eventBegin, Ev.log, Ev.eventEnd], some st1)
  else if env.asprintfOk = false then
    ([Ev.speakOk, Ev.eventBegin, Ev.tmpCreated, Ev.log, Ev.unlink, Ev.eventEnd],
     some st1)
  else if env.popenOk = false then
    ([Ev.speakOk, Ev.eventBegin, Ev.tmpCreated, Ev.log, Ev.unlink, Ev.eventEnd],
     some st1)
  else if env.pcloseStatus ≠ 0 then
    ([Ev.speakOk, Ev.eventBegin, Ev.tmpCreated, Ev.log, Ev.unlink, Ev.eventEnd],
     some st1)
  else if env.fopenOk = false then
    ([Ev.speakOk, Ev.eventBegin, Ev.tmpCreated, Ev.log, Ev.unlink, Ev.eventEnd],
     some st1)
  else
    match (extract env.wavFile).result with
    | .error .divByZero =>
        ([Ev.speakOk, Ev.eventBegin, Ev.tmpCreated], none)
    | .error (.shortRead _) =>
        ([Ev.speakOk, Ev.eventBegin, Ev.tmpCreated, Ev.log, Ev.unlink, Ev.eventEnd],
         some st1)
    | .ok _ =>
        ([Ev.speakOk, Ev.eventBegin, Ev.tmpCreated, Ev.deliver, Ev.unlink, Ev.eventEnd],
         some st1)

/-- `module_speak_sync` (lines 176-322): the parameter-update step
followed by the request body; an abort during the update ends the
process at once. -/
def module_speak_sync (env : Env) (st : ModState) (old new_ : MsgSettings) :
    List Ev × Option ModState :=
  match (update_parameters env st old new_).2 with
  | none => ((update_parameters env st old new_).1, none)
  | some st1 =>
      ((update_parameters env st old new_).1 ++ (speak_body env st1).1,
       (speak_body env st1).2)

/-! ## Trace-shape lemmas -/

/-- Every event of a voice-setter run is an assert abort or a registry
lookup. -/
lemma set_voice_events (env : Env) (st : ModState) (vt : Nat) :
    ∀ e ∈ (openjtalk_set_voice env st vt).1,
      e = Ev.abortAssert ∨ ∃ l v, e = Ev.lookup l v := by
  intro e he
  cases h : st.msg_language with
  | none =>
      simp [openjtalk_set_voice, h] at he
      exact Or.inl he
  | some lang =>
      simp [openjtalk_set_voice, h] at he
      exact Or.inr ⟨lang, vt, he⟩

/-- Every event of the language update step is an assert abort or a
registry lookup. -/
lemma step_lang_events (env : Env) (st : ModState) (old new_ : MsgSettings) :
    ∀ e ∈ (step_lang env st old new_).1,
      e = Ev.abortAssert ∨ ∃ l v, e = Ev.lookup l v := by
  intro e he
  unfold step_lang at he
  by_cases hc : new_.language ≠ old.language
  · rw [if_pos hc] at he
    cases hl : new_.language with
    | none =>
        rw [hl] at he
        simp at he
    | some l =>
        rw [hl] at he
        simp only [openjtalk_set_language] at he
        exact set_voice_events env _ _ e he
  · rw [if_neg hc] at he
    simp at he

/-- Every event of the voice-type update step is an assert abort or a
registry lookup. -/
lemma step_vt_events (env : Env) (st : ModState) (old new_ : MsgSettings) :
    ∀ e ∈ (step_vt env st old new_).1,
      e = Ev.abortAssert ∨ ∃ l v, e = Ev.lookup l v := by
  intro e he
  unfold step_vt at he
  by_cases hc : new_.voice_type ≠ old.voice_type
  · rw [if_pos hc] at he
    exact set_voice_events env st new_.voice_type e he
  · rw [if_neg hc] at he
    simp at he

/-- Every event of the whole parameter-update step is an assert abort
or a registry lookup: the update step emits none of the request-body
events. -/
lemma update_parameters_events (env : Env) (st : ModState) (old new_ : MsgSettings) :
    ∀ e ∈ (update_parameters env st old new_).1,
      e = Ev.abortAssert ∨ ∃ l v, e = Ev.lookup l v := by
  intro e he
  cases hs1 : (step_lang env st old new_).2 with
  | none =>
      simp only [update_parameters, hs1] at he
      exact step_lang_events env st old new_ e he
  | some st1 =>
      cases hs2 : (step_vt env st1 old new_).2 with
      | none =>
          simp only [update_parameters, hs1, hs2] at he
          rcases List.mem_append.mp he with h | h
          · exact step_lang_events env st old new_ e h
          · exact step_vt_events env st1 old new_ e h
      | some st2 =>
          simp only [update_parameters, hs1, hs2] at he
          rcases List.mem_append.mp he with h | h
          · exact step_lang_events env st old new_ e h
          · exact step_vt_events env st1 old new_ e h

/-- A non-abort, non-lookup event never comes from the parameter-update
step. -/
lemma up_not_mem (env : Env) (st : ModState) (old new_ : MsgSettings) (e : Ev)
    (h1 : e ≠ Ev.abortAssert) (h2 : ∀ l v, e ≠ Ev.lookup l v) :
    e ∉ (update_parameters env st old new_).1 := by
  intro h
  rcases update_parameters_events env st old new_ e h with h' | ⟨l, v, h'⟩
  · exact h1 h'
  · exact h2 l v h'

/-- The parameter-update step never unlinks anything. -/
lemma up_count_unlink (env : Env) (st : ModState) (old new_ : MsgSettings) :
    (update_parameters env st old new_).1.count Ev.unlink = 0 := by
  rw [List.count_eq_zero]
  exact up_not_mem env st old new_ Ev.unlink (by intro h; cases h)
    (by intro l v h; cases h)

/-- When the request body creates the temporary file and the run
returns (no process abort), the body unlinks it exactly once. -/
lemma speak_body_count_unlink (env : Env) (st1 : ModState)
    (hb : Ev.tmpCreated ∈ (speak_body env st1).1)
    (hret : (speak_body env st1).2 ≠ none) :
    (speak_body env st1).1.count Ev.unlink = 1 := by
  by_cases hp : st1.htsvoice_path = none
  · simp [speak_body, hp] at hb
  by_cases hm : env.mkstempOk = false
  · simp [speak_body, hp, hm] at hb
  by_cases ha : env.asprintfOk = false
  · simp only [speak_body, if_neg hp, if_neg hm, if_pos ha]
    decide
  by_cases hpo : env.popenOk = false
  · simp only [speak_body, if_neg hp, if_neg hm, if_neg ha, if_pos hpo]
    decide
  by_cases hst : env.pcloseStatus ≠ 0
  · simp only [speak_body, if_neg hp, if_neg hm, if_neg ha, if_neg hpo, if_pos hst]
    decide
  by_cases hf : env.fopenOk = false
  · simp only [speak_body, if_neg hp, if_neg hm, if_neg ha, if_neg hpo, if_neg hst,
      if_pos hf]
    decide
  rcases hex : (extract env.wavFile).result with e | t
  · cases e with
    | shortRead s =>
        simp only [speak_body, if_neg hp, if_neg hm, if_neg ha, if_neg hpo,
          if_neg hst, if_neg hf, hex]
        decide
    | divByZero =>
        simp only [speak_body, if_neg hp, if_neg hm, if_neg ha, if_neg hpo,
          if_neg hst, if_neg hf, hex] at hret
        exact absurd rfl hret
  · simp only [speak_body, if_neg hp, if_neg hm, if_neg ha, if_neg hpo,
      if_neg hst, if_neg hf, hex]
    decide

/-- When the engine fails to start or exits non-zero, the body never
delivers audio and always returns (no abort is reachable). -/
lemma speak_body_engine_fail (env : Env) (st1 : ModState)
    (hfail : env.popenOk = false ∨ env.pcloseStatus ≠ 0) :
    Ev.deliver ∉ (speak_body env st1).1 ∧ (speak_body env st1).2 ≠ none := by
  by_cases hp : st1.htsvoice_path = none
  · simp only [speak_body, if_pos hp]
    exact ⟨by decide, by simp⟩
  by_cases hm : env.mkstempOk = false
  · simp only [speak_body, if_neg hp, if_pos hm]
    exact ⟨by decide, by simp⟩
  by_cases ha : env.asprintfOk = false
  · simp only [speak_body, if_neg hp, if_neg hm, if_pos ha]
    exact ⟨by decide, by simp⟩
  by_cases hpo : env.popenOk = false
  · simp only [speak_body, if_neg hp, if_neg hm, if_neg ha, if_pos hpo]
    exact ⟨by decide, by simp⟩
  have hst : env.pcloseStatus ≠ 0 := by
    rcases hfail with h | h
    · exact absurd h hpo
    · exact h
  simp only [speak_body, if_neg hp, if_neg hm, if_neg ha, if_neg hpo, if_pos hst]
  exact ⟨by decide, by simp⟩

/-! ## Concrete request fixtures -/

/-- Fixture: a tiny well-formed output file (8 bits, one channel, four
data bytes). -/
def wavSmall : List Nat := mkWav 8 1 0 4 [1, 2, 3, 4]

/-- Fixture: an environment in which every external call succeeds. -/
def envOK : Env :=
  ⟨fun _ _ => some "V", fun _ => false, fun _ => true, ["/v/$VOICE"],
   true, true, true, 0, true, wavSmall⟩

/-- Fixture: module state with a resolved voice and path. -/
def stOK : ModState := ⟨some "V", some "ja", some "/v/V"⟩

/-- Fixture: message settings matching `stOK`, so the update step
changes nothing. -/
def setOK : MsgSettings := ⟨some "ja", 1, none⟩

/-- Fixture: like `envOK` but the engine exits with status 2 (the
spec's example). -/
def envStatus2 : Env :=
  ⟨fun _ _ => some "V", fun _ => false, fun _ => true, ["/v/$VOICE"],
   true, true, true, 2, true, wavSmall⟩

/-- Fixture: like `envOK` but `mkstemp` fails. -/
def envNoTmp : Env :=
  ⟨fun _ _ => some "V", fun _ => false, fun _ => true, ["/v/$VOICE"],
   false, true, true, 0, true, wavSmall⟩

/-- Fixture: like `envOK` but `fopen` on the output file fails. -/
def envNoOpen : Env :=
  ⟨fun _ _ => some "V", fun _ => false, fun _ => true, ["/v/$VOICE"],
   true, true, true, 0, false, wavSmall⟩

/-! ## Claim C4 -/

/-- Claim C4: in every speak request whose temporary output file is
created and that ends by one of its exit paths (command-line
construction failure, launch failure, non-zero exit, output-file open
failure, a short read, or success — that is, the run returns rather
than dying in the unguarded division), the file is unlinked exactly
once. -/
theorem claim_C4 (env : Env) (st : ModState) (old new_ : MsgSettings)
    (hcreated : Ev.tmpCreated ∈ (module_speak_sync env st old new_).1)
    (hret : (module_speak_sync env st old new_).2 ≠ none) :
    (module_speak_sync env st old new_).1.count Ev.unlink = 1 := by
  cases hu : (update_parameters env st old new_).2 with
  | none =>
      simp only [module_speak_sync, hu] at hret
      exact absurd rfl hret
  | some st1 =>
      simp only [module_speak_sync, hu] at hcreated hret ⊢
      have hb : Ev.tmpCreated ∈ (speak_body env st1).1 := by
        rcases List.mem_append.mp hcreated with h' | h'
        · exact absurd h' (up_not_mem env st old new_ Ev.tmpCreated
            (by intro h; cases h) (by intro l v h; cases h))
        · exact h'
      rw [List.count_append, up_count_unlink env st old new_, Nat.zero_add]
      exact speak_body_count_unlink env st1 hb hret

/-- Witness for C4: the all-success environment creates the file and
unlinks it once. -/
theorem claim_C4_witness :
    (module_speak_sync envOK stOK setOK setOK).1.count Ev.unlink = 1 :=
  claim_C4 envOK stOK setOK setOK (by decide) (by decide)

/-! ## Claim C5 -/

/-- Claim C5: when the engine subprocess fails to start or exits with
any non-zero status, the request never reaches delivery
(`module_tts_output_server`), and the temporary file, if created, is
still unlinked exactly once. -/
theorem claim_C5 (env : Env) (st : ModState) (old new_ : MsgSettings)
    (hfail : env.popenOk = false ∨ env.pcloseStatus ≠ 0) :
    Ev.deliver ∉ (module_speak_sync env st old new_).1 ∧
    (Ev.tmpCreated ∈ (module_speak_sync env st old new_).1 →
      (module_speak_sync env st old new_).1.count Ev.unlink = 1) := by
  cases hu : (update_parameters env st old new_).2 with
  | none =>
      simp only [module_speak_sync, hu]
      constructor
      · exact up_not_mem env st old new_ Ev.deliver
          (by intro h; cases h) (by intro l v h; cases h)
      · intro h
        exact absurd h (up_not_mem env st old new_ Ev.tmpCreated
          (by intro h'; cases h') (by intro l v h'; cases h'))
  | some st1 =>
      simp only [module_speak_sync, hu]
      constructor
      · intro h
        rcases List.mem_append.mp h with h' | h'
        · exact up_not_mem env st old new_ Ev.deliver
            (by intro h''; cases h'') (by intro l v h''; cases h'') h'
        · exact (speak_body_engine_fail env st1 hfail).1 h'
      · intro h
        have hb : Ev.tmpCreated ∈ (speak_body env st1).1 := by
          rcases List.mem_append.mp h with h' | h'
          · exact absurd h' (up_not_mem env st old new_ Ev.tmpCreated
              (by intro h''; cases h'') (by intro l v h''; cases h''))
          · exact h'
        rw [List.count_append, up_count_unlink env st old new_, Nat.zero_add]
        exact speak_body_count_unlink env st1 hb (speak_body_engine_fail env st1 hfail).2

/-- Witness for C5 at the spec's example: exit status 2. -/
theorem claim_C5_witness :
    Ev.deliver ∉ (module_speak_sync envStatus2 stOK setOK setOK).1 ∧
    (Ev.tmpCreated ∈ (module_speak_sync envStatus2 stOK setOK setOK).1 →
      (module_speak_sync envStatus2 stOK setOK setOK).1.count Ev.unlink = 1) :=
  claim_C5 envStatus2 stOK setOK setOK (by decide)

/-! ## Claim C9 -/

/-- Claim C9: with the language unset, `openjtalk_set_voice` dies on
its assert before any `(language, voiceType)` registry lookup: the run
aborts and its trace contains no lookup event. -/
theorem claim_C9 (env : Env) (st : ModState) (vt : Nat)
    (h : st.msg_language = none) :
    openjtalk_set_voice env st vt = ([Ev.abortAssert], none) ∧
    ∀ lang v, Ev.lookup lang v ∉ (openjtalk_set_voice env st vt).1 := by
  constructor
  · simp [openjtalk_set_voice, h]
  · intro lang v hm
    simp [openjtalk_set_voice, h] at hm

/-- Witness for C9 at a concrete unset-language state. -/
theorem claim_C9_witness :
    openjtalk_set_voice envOK ⟨none, none, none⟩ 1 = ([Ev.abortAssert], none) ∧
    ∀ lang v, Ev.lookup lang v ∉ (openjtalk_set_voice envOK ⟨none, none, none⟩ 1).1 :=
  claim_C9 envOK ⟨none, none, none⟩ 1 (by decide)

/-! ## Claim C8 -/

/-- Counterexample to claim C8 as stated: temp-file creation failure is
a per-request error, yet the request emits no "speak failed" signal —
`module_speak_error` is only ever sent for an unresolved voice, before
the request is accepted; later errors are only logged and closed with
the ordinary end event.  (Completion is still reported.) -/
theorem claim_C8_cex :
    envNoTmp.mkstempOk = false ∧
    Ev.speakError ∉ (module_speak_sync envNoTmp stOK setOK setOK).1 ∧
    Ev.eventEnd ∈ (module_speak_sync envNoTmp stOK setOK setOK).1 := by decide

/-- Under any of the post-acceptance per-request errors the body ends
in one of the two logged error shapes. -/
lemma speak_body_err (env : Env) (st1 : ModState)
    (hp : ¬ st1.htsvoice_path = none)
    (herr : env.mkstempOk = false ∨ env.asprintfOk = false ∨ env.popenOk = false ∨
      env.pcloseStatus ≠ 0 ∨ env.fopenOk = false ∨
      ∃ s, (extract env.wavFile).result = Except.error (WavError.shortRead s)) :
    speak_body env st1 =
      ([Ev.speakOk, Ev.eventBegin, Ev.log, Ev.eventEnd], some st1) ∨
    speak_body env st1 =
      ([Ev.speakOk, Ev.eventBegin, Ev.tmpCreated, Ev.log, Ev.unlink, Ev.eventEnd],
       some st1) := by
  by_cases hm : env.mkstempOk = false
  · left
    simp only [speak_body, if_neg hp, if_pos hm]
  by_cases ha : env.asprintfOk = false
  · right
    simp only [speak_body, if_neg hp, if_neg hm, if_pos ha]
  by_cases hpo : env.popenOk = false
  · right
    simp only [speak_body, if_neg hp, if_neg hm, if_neg ha, if_pos hpo]
  by_cases hst : env.pcloseStatus ≠ 0
  · right
    simp only [speak_body, if_neg hp, if_neg hm, if_neg ha, if_neg hpo, if_pos hst]
  by_cases hf : env.fopenOk = false
  · right
    simp only [speak_body, if_neg hp, if_neg hm, if_neg ha, if_neg hpo, if_neg hst,
      if_pos hf]
  rcases herr with h | h | h | h | h | ⟨s, hex⟩
  · exact absurd h hm
  · exact absurd h ha
  · exact absurd h hpo
  · exact absurd h hst
  · exact absurd h hf
  · right
    simp only [speak_body, if_neg hp, if_neg hm, if_neg ha, if_neg hpo, if_neg hst,
      if_neg hf, hex]

/-- Claim C8 (amended): an unresolved voice is reported through the
speak-failed signal alone (no begin/end events); every listed
per-request error after acceptance (temp-file creation failure,
command-line failure, spawn failure, non-zero exit, output-file open
failure, any extraction short read) produces a diagnostic log entry,
emits no speak-failed signal and no audio, does not crash the backend,
and the request still reports completion through the end event. -/
theorem claim_C8_amended (env : Env) (st : ModState) (old new_ : MsgSettings)
    (st1 : ModState) (hup : (update_parameters env st old new_).2 = some st1) :
    (st1.htsvoice_path = none →
      module_speak_sync env st old new_ =
        ((update_parameters env st old new_).1 ++ [Ev.log, Ev.speakError],
         some st1)) ∧
    (st1.htsvoice_path ≠ none →
      (env.mkstempOk = false ∨ env.asprintfOk = false ∨ env.popenOk = false ∨
        env.pcloseStatus ≠ 0 ∨ env.fopenOk = false ∨
        ∃ s, (extract env.wavFile).result = Except.error (WavError.shortRead s)) →
      Ev.speakError ∉ (module_speak_sync env st old new_).1 ∧
      Ev.deliver ∉ (module_speak_sync env st old new_).1 ∧
      Ev.log ∈ (module_speak_sync env st old new_).1 ∧
      Ev.eventEnd ∈ (module_speak_sync env st old new_).1 ∧
      (module_speak_sync env st old new_).2 = some st1) := by
  constructor
  · intro hp
    simp only [module_speak_sync, hup]
    simp [speak_body, hp]
  · intro hp herr
    rcases speak_body_err env st1 hp herr with hbody | hbody <;>
    · simp only [module_speak_sync, hup, hbody]
      refine ⟨?_, ?_, ?_, ?_, ?_⟩
      · intro h
        rcases List.mem_append.mp h with h' | h'
        · exact up_not_mem env st old new_ _
            (by intro h''; cases h'') (by intro l v h''; cases h'') h'
        · simp at h'
      · intro h
        rcases List.mem_append.mp h with h' | h'
        · exact up_not_mem env st old new_ _
            (by intro h''; cases h'') (by intro l v h''; cases h'') h'
        · simp at h'
      · simp
      · simp
      · trivial

/-- Witness for the amended C8 at a request whose output file cannot be
opened. -/
theorem claim_C8_witness :
    Ev.speakError ∉ (module_speak_sync envNoOpen stOK setOK setOK).1 ∧
    Ev.deliver ∉ (module_speak_sync envNoOpen stOK setOK setOK).1 ∧
    Ev.log ∈ (module_speak_sync envNoOpen stOK setOK setOK).1 ∧
    Ev.eventEnd ∈ (module_speak_sync envNoOpen stOK setOK setOK).1 ∧
    (module_speak_sync envNoOpen stOK setOK setOK).2 = some stOK :=
  (claim_C8_amended envNoOpen stOK setOK setOK stOK (by decide)).2 (by decide)
    (Or.inr (Or.inr (Or.inr (Or.inr (Or.inl rfl)))))

/-! ## Claim C7 -/

/-- `openjtalk_set_voice` overwrites the voice identifier and the
resolved path, so its outcome depends only on the language field. -/
lemma set_voice_indep (env : Env) (vt : Nat) (vs₁ vs₂ lang p₁ p₂ : Option String) :
    openjtalk_set_voice env ⟨vs₁, lang, p₁⟩ vt =
      openjtalk_set_voice env ⟨vs₂, lang, p₂⟩ vt := by
  cases lang <;> rfl

/-- After a language change to a set value, the whole parameter-update
step no longer depends on the incoming resolved path (or voice
identifier): `openjtalk_set_language` overwrites all three state
fields. -/
lemma lang_changed_indep (env : Env) (old new_ : MsgSettings)
    (vs lang p₁ p₂ : Option String)
    (hne : new_.language ≠ old.language) (l : String) (hl : new_.language = some l) :
    update_parameters env ⟨vs, lang, p₁⟩ old new_ =
      update_parameters env ⟨vs, lang, p₂⟩ old new_ := by
  have hstep : ∀ p : Option String,
      step_lang env ⟨vs, lang, p⟩ old new_ =
        openjtalk_set_voice env ⟨none, some l, none⟩ new_.voice_type := by
    intro p
    unfold step_lang
    rw [if_pos hne]
    simp only [hl, openjtalk_set_language]
    exact set_voice_indep env new_.voice_type vs none (some l) p none
  simp only [update_parameters, hstep]

/-- Fixture for C7: the registry knows only the voice "alice"; every
path exists. -/
def cEnv : Env :=
  ⟨fun _ _ => some "V", fun n => n == "alice", fun _ => true, ["/v/$VOICE"],
   true, true, true, 0, true, []⟩

/-- Fixture for C7: previous message selected the registered name
"alice". -/
def cOld : MsgSettings := ⟨some "en", 1, some "alice"⟩

/-- Fixture for C7: new message changes only the explicit name, to the
unregistered "bogus". -/
def cNew : MsgSettings := ⟨some "en", 1, some "bogus"⟩

/-- Counterexample to claim C7 as stated: the explicit voice name
changes (to an unregistered name), yet the parameter-update step does
not recompute the resolved path — whatever path was left from the
previous selection survives, as the two runs with different leftover
paths show. -/
theorem claim_C7_cex :
    cNew.name ≠ cOld.name ∧
    pathAfterUpdate cEnv ⟨some "alice", some "en", some "/v/alice"⟩ cOld cNew =
      some (some "/v/alice") ∧
    pathAfterUpdate cEnv ⟨some "alice", some "en", some "/stale"⟩ cOld cNew =
      some (some "/stale") := by decide

/-- Claim C7 (amended): a change of the language (to a set value) or of
the voice type always forces re-resolution — the path after the update
step is independent of the previously resolved path; a change of the
explicit voice name forces re-resolution only when the new name is a
registered voice, and when it is not (with language and voice type
unchanged) the previously resolved path is kept for the request. -/
theorem claim_C7_amended (env : Env) (old new_ : MsgSettings)
    (vs lang p₁ p₂ : Option String) :
    (((new_.language ≠ old.language ∧ new_.language.isSome) ∨
      new_.voice_type ≠ old.voice_type ∨
      (new_.name ≠ old.name ∧ ∃ n, new_.name = some n ∧ env.existsvoice n = true)) →
      pathAfterUpdate env ⟨vs, lang, p₁⟩ old new_ =
        pathAfterUpdate env ⟨vs, lang, p₂⟩ old new_) ∧
    (new_.language = old.language → new_.voice_type = old.voice_type →
      ∀ n, new_.name = some n → new_.name ≠ old.name → env.existsvoice n = false →
      pathAfterUpdate env ⟨vs, lang, p₁⟩ old new_ = some p₁) := by
  constructor
  · intro h
    by_cases hnl : new_.language ≠ old.language ∧ new_.language.isSome
    · obtain ⟨hne, hsome⟩ := hnl
      obtain ⟨l, hl⟩ := Option.isSome_iff_exists.mp hsome
      unfold pathAfterUpdate
      rw [lang_changed_indep env old new_ vs lang p₁ p₂ hne l hl]
    · have hstep : ∀ p : Option String,
          step_lang env ⟨vs, lang, p⟩ old new_ = ([], some ⟨vs, lang, p⟩) := by
        intro p
        unfold step_lang
        by_cases hc : new_.language ≠ old.language
        · rw [if_pos hc]
          cases hl : new_.language with
          | none => rfl
          | some l => exact absurd ⟨hc, by simp [hl]⟩ hnl
        · rw [if_neg hc]
      rcases h with ⟨hne, hsome⟩ | hvt | ⟨hne, n, hn, hreg⟩
      · exact absurd ⟨hne, hsome⟩ hnl
      · have hv : ∀ s : ModState,
            step_vt env s old new_ = openjtalk_set_voice env s new_.voice_type := by
          intro s
          simp [step_vt, hvt]
        simp only [pathAfterUpdate, update_parameters, hstep, hv]
        rw [set_voice_indep env new_.voice_type vs vs lang p₁ p₂]
      · by_cases hvt : new_.voice_type ≠ old.voice_type
        · have hv : ∀ s : ModState,
              step_vt env s old new_ = openjtalk_set_voice env s new_.voice_type := by
            intro s
            simp [step_vt, hvt]
          simp only [pathAfterUpdate, update_parameters, hstep, hv]
          rw [set_voice_indep env new_.voice_type vs vs lang p₁ p₂]
        · have hv : ∀ s : ModState, step_vt env s old new_ = ([], some s) := by
            intro s
            simp [step_vt, hvt]
          have hne' : (some n : Option String) ≠ old.name := hn ▸ hne
          have hname : ∀ s : ModState,
              step_name env s old new_ = openjtalk_set_synthesis_voice env s n := by
            intro s
            simp only [step_name, hn]
            rw [if_pos hne']
          have hsv : ∀ p : Option String,
              openjtalk_set_synthesis_voice env ⟨vs, lang, p⟩ n =
                ⟨some n, lang,
                 update_htsvoice_path env.searchPaths env.fileExists (some n)⟩ := by
            intro p
            simp [openjtalk_set_synthesis_voice, hreg]
          simp only [pathAfterUpdate, update_parameters, hstep, hv, hname, hsv]
  · intro h1 h2 n hn hne hreg
    have c1 : ¬ new_.language ≠ old.language := by simp [h1]
    have c2 : ¬ new_.voice_type ≠ old.voice_type := by simp [h2]
    have hstep : step_lang env ⟨vs, lang, p₁⟩ old new_ =
        ([], some ⟨vs, lang, p₁⟩) := by
      unfold step_lang
      rw [if_neg c1]
    have hv : step_vt env ⟨vs, lang, p₁⟩ old new_ =
        ([], some ⟨vs, lang, p₁⟩) := by
      unfold step_vt
      rw [if_neg c2]
    have hne' : (some n : Option String) ≠ old.name := hn ▸ hne
    have hname : step_name env ⟨vs, lang, p₁⟩ old new_ = ⟨vs, lang, p₁⟩ := by
      simp only [step_name, hn]
      rw [if_pos hne']
      simp [openjtalk_set_synthesis_voice, hreg]
    simp only [pathAfterUpdate, update_parameters, hstep, hv, hname]
    rfl

/-- Fixture for C7's witness: previous message had no explicit name. -/
def cOldB : MsgSettings := ⟨some "en", 1, none⟩

/-- Fixture for C7's witness: new message selects the registered name
"alice". -/
def cNewReg : MsgSettings := ⟨some "en", 1, some "alice"⟩

/-- Witness for the amended C7: a name change to a registered voice
makes the resulting path independent of the leftover path. -/
theorem claim_C7_witness :
    pathAfterUpdate cEnv ⟨some "V", some "en", some "/a"⟩ cOldB cNewReg =
      pathAfterUpdate cEnv ⟨some "V", some "en", some "/b"⟩ cOldB cNewReg :=
  (claim_C7_amended cEnv cOldB cNewReg (some "V") (some "en")
      (some "/a") (some "/b")).1
    (Or.inr (Or.inr ⟨by decide, "alice", rfl, by decide⟩))

end OpenJTalk
